import Mathlib

/-!
Verification of the group/leaf metadata model
(`org.openmcptools.extensions.groups`: `common.py` and `groupext.py`).

Python objects are modelled by explicit state passing over a heap of
numbered objects: object identity is the `Nat` id, and every mutating
method takes and returns the heap (or the single object it touches).
Methods that can raise return `Except String`; recursive procedures whose
termination is in question are fuel-indexed and return `PyRes`, where
`PyRes.diverge` marks fuel exhaustion (the call did not return within the
given call depth).
-/

/-- The concrete class of a model object; `AbstractBase.__eq__` compares
`self.__class__` against `other.__class__`. -/
inductive Kind where
  | group
  | tool
  | prompt
  | resource
  | promptArgument
deriving DecidableEq, Repr

/-- `AbstractBase.DEFAULT_SEPARATOR` (common.py line 11). -/
def DEFAULT_SEPARATOR : String := "."

/-- `AbstractBase.__eq__` (common.py lines 119-136): `True` iff the two
objects are of the same concrete class and their `_name` attributes are
equal. The `self is other` shortcut is subsumed (one object has one class
and one name), and `other is None` does not arise in the typed call sites
modelled here. -/
def abstractBaseEq (selfKind : Kind) (selfName : String)
    (otherKind : Kind) (otherName : String) : Bool :=
  selfKind == otherKind && selfName == otherName

/-- The state of a `Group` object (common.py lines 408-430): name and
separator from `AbstractBase`, the optional parent pointer and the four
child-id lists. Display metadata (title, description, meta, icons) is
carried by no claim and is omitted. -/
structure GroupObj where
  name : String
  nameSeparator : String
  parent : Option Nat
  childGroups : List Nat
  childTools : List Nat
  childPrompts : List Nat
  childResources : List Nat
deriving DecidableEq, Repr

/-- The state of a `Tool` object (common.py lines 892-907). -/
structure ToolObj where
  name : String
  nameSeparator : String
  parentGroups : List Nat
  inputSchema : Option String
  outputSchema : Option String
deriving DecidableEq, Repr

/-- The state of a `Prompt` object (common.py lines 697-711). -/
structure PromptObj where
  name : String
  nameSeparator : String
  parentGroups : List Nat
  promptArguments : List Nat
deriving DecidableEq, Repr

/-- The state of a `PromptArgument` object (common.py lines 644-657). -/
structure PromptArgObj where
  name : String
  nameSeparator : String
  required : Bool
deriving DecidableEq, Repr

/-- The state of a `Resource` object (common.py lines 970-986). -/
structure ResourceObj where
  name : String
  nameSeparator : String
  parentGroups : List Nat
  uri : Option String
  size : Option Int
  mimeType : Option String
deriving DecidableEq, Repr

/-- The heap: every object kind the claims touch, addressed by id. Ids of
different kinds live in different address spaces, as distinct Python
objects do. -/
structure Heap where
  groups : Nat → GroupObj
  tools : Nat → ToolObj
  prompts : Nat → PromptObj
  promptArgs : Nat → PromptArgObj
  resources : Nat → ResourceObj

/-- Overwrite one group object of the heap. -/
def setGroup (h : Heap) (i : Nat) (g : GroupObj) : Heap :=
  { h with groups := fun j => if j = i then g else h.groups j }

/-- Overwrite one tool object of the heap. -/
def setTool (h : Heap) (i : Nat) (t : ToolObj) : Heap :=
  { h with tools := fun j => if j = i then t else h.tools j }

/-- Overwrite one prompt object of the heap. -/
def setPrompt (h : Heap) (i : Nat) (p : PromptObj) : Heap :=
  { h with prompts := fun j => if j = i then p else h.prompts j }

/-- Python `list.remove(x)` (used by the removal methods of common.py):
drop the first element that compares equal to `x`, where `eqArg e` decides
`e == x`; `none` models the `ValueError` raised when no element matches. -/
def removeFirst {α : Type} (eqArg : α → Bool) : List α → Option (List α)
  | [] => none
  | x :: xs =>
    if eqArg x then some xs
    else (removeFirst eqArg xs).map (fun l => x :: l)

/-- `AbstractBase.__init__` (common.py lines 13-31): raises `ValueError`
when `name` is `None`; the separator defaults to `DEFAULT_SEPARATOR`.
Returns the `(name, nameSeparator)` pair of attributes it sets. -/
def abstract_base_init (name : Option String) (nameSeparator : Option String) :
    Except String (String × String) :=
  match name with
  | none => .error "name must not be null"
  | some n =>
    .ok (n, match nameSeparator with
            | some s => s
            | none => DEFAULT_SEPARATOR)

/-- `AbstractLeaf.__init__` (common.py lines 330-343): forwards to
`AbstractBase.__init__`, passing the separator only when given. -/
def abstract_leaf_init (name : Option String) (nameSeparator : Option String) :
    Except String (String × String) :=
  match nameSeparator with
  | some s => abstract_base_init name (some s)
  | none => abstract_base_init name none

/-- `Group.__init__` (common.py lines 413-430). -/
def group_init (name : Option String) (nameSeparator : Option String) :
    Except String GroupObj :=
  let base : Except String (String × String) :=
    match nameSeparator with
    | some s => abstract_base_init name (some s)
    | none => abstract_base_init name (some DEFAULT_SEPARATOR)
  base.map fun b =>
    { name := b.1, nameSeparator := b.2, parent := none, childGroups := [],
      childTools := [], childPrompts := [], childResources := [] }

/-- `Tool.__init__` (common.py lines 897-907). -/
def tool_init (name : Option String) : Except String ToolObj :=
  (abstract_leaf_init name none).map fun b =>
    { name := b.1, nameSeparator := b.2, parentGroups := [],
      inputSchema := none, outputSchema := none }

/-- `Prompt.__init__` (common.py lines 702-711). -/
def prompt_init (name : Option String) : Except String PromptObj :=
  (abstract_leaf_init name none).map fun b =>
    { name := b.1, nameSeparator := b.2, parentGroups := [], promptArguments := [] }

/-- `Resource.__init__` (common.py lines 975-986). -/
def resource_init (name : Option String) : Except String ResourceObj :=
  (abstract_leaf_init name none).map fun b =>
    { name := b.1, nameSeparator := b.2, parentGroups := [],
      uri := none, size := none, mimeType := none }

/-- `PromptArgument.__init__` (common.py lines 649-657). -/
def prompt_argument_init (name : Option String) : Except String PromptArgObj :=
  (abstract_base_init name none).map fun b =>
    { name := b.1, nameSeparator := b.2, required := false }

/-- `AbstractLeaf.add_parent_group` as inherited by `Prompt` (common.py
lines 350-366): raises `ValueError` on `None`, otherwise appends and
returns `True`. An error result carries no new object state: the object held
by the caller is untouched. -/
def PromptObj.add_parent_group (self : PromptObj) (parentGroup : Option Nat) :
    Except String (PromptObj × Bool) :=
  match parentGroup with
  | none => .error "parentGroup must not be null"
  | some g => .ok ({ self with parentGroups := self.parentGroups ++ [g] }, true)

/-- `AbstractLeaf.add_parent_group` as inherited by `Tool` (common.py
lines 350-366). -/
def ToolObj.add_parent_group (self : ToolObj) (parentGroup : Option Nat) :
    Except String (ToolObj × Bool) :=
  match parentGroup with
  | none => .error "parentGroup must not be null"
  | some g => .ok ({ self with parentGroups := self.parentGroups ++ [g] }, true)

/-- `Prompt.add_prompt_argument` (common.py lines 722-738): raises
`ValueError` on `None`, otherwise appends and returns `True`. -/
def PromptObj.add_prompt_argument (self : PromptObj) (promptArgument : Option Nat) :
    Except String (PromptObj × Bool) :=
  match promptArgument with
  | none => .error "promptArgument must not be null"
  | some a => .ok ({ self with promptArguments := self.promptArguments ++ [a] }, true)

/-- `Prompt.remove_parent_group` (common.py lines 740-754): despite its
name, this override of the leaf method runs `list.remove` on
`_prompt_arguments` (its own docstring notes the misleading name).
`argKind`/`argName` are the class and name of the object passed in, which
`list.remove` compares against each `PromptArgument` via
`AbstractBase.__eq__`. -/
def prompt_remove_parent_group (promptArgs : Nat → PromptArgObj) (self : PromptObj)
    (argKind : Kind) (argName : String) : PromptObj × Bool :=
  match removeFirst
      (fun aId => abstractBaseEq .promptArgument (promptArgs aId).name argKind argName)
      self.promptArguments with
  | some l => ({ self with promptArguments := l }, true)
  | none => (self, false)

/-- `Group.set_parent` (common.py lines 441-443): `self._parent = parent`. -/
def set_parent (h : Heap) (self : Nat) (parent : Option Nat) : Heap :=
  setGroup h self { h.groups self with parent := parent }

/-- `Group.add_child_group` (common.py lines 467-479): append the child to
`_child_groups`, then set `child_group._parent = self`; returns `True`. -/
def add_child_group (h : Heap) (self child : Nat) : Heap × Bool :=
  let h1 := setGroup h self
    { h.groups self with childGroups := (h.groups self).childGroups ++ [child] }
  (setGroup h1 child { h1.groups child with parent := some self }, true)

/-- `Group.remove_child_group` (common.py lines 481-496): `list.remove`
the child from `_child_groups` (comparison by `AbstractBase.__eq__`, both
operands of class `Group`), then set `child_group._parent = None` and
return `True`; on `ValueError` return `False` with nothing changed. -/
def remove_child_group (h : Heap) (self child : Nat) : Heap × Bool :=
  match removeFirst
      (fun j => abstractBaseEq .group (h.groups j).name .group (h.groups child).name)
      (h.groups self).childGroups with
  | some l =>
    let h1 := setGroup h self { h.groups self with childGroups := l }
    (setGroup h1 child { h1.groups child with parent := none }, true)
  | none => (h, false)

/-- `Group.add_child_tool` (common.py lines 502-514): append to
`_child_tools`, then `child_tool.add_parent_group(self)`; `self` is never
`None`, so the error branch of that call is unreachable. -/
def add_child_tool (h : Heap) (self child : Nat) : Heap × Bool :=
  let h1 := setGroup h self
    { h.groups self with childTools := (h.groups self).childTools ++ [child] }
  match (h1.tools child).add_parent_group (some self) with
  | .ok r => (setTool h1 child r.1, true)
  | .error _ => (h1, true)

/-- `Group.add_child_prompt` (common.py lines 537-549): append to
`_child_prompts`, then `child_prompt.add_parent_group(self)`; `self` is
never `None`, so the error branch of that call is unreachable. -/
def add_child_prompt (h : Heap) (self child : Nat) : Heap × Bool :=
  let h1 := setGroup h self
    { h.groups self with childPrompts := (h.groups self).childPrompts ++ [child] }
  match (h1.prompts child).add_parent_group (some self) with
  | .ok r => (setPrompt h1 child r.1, true)
  | .error _ => (h1, true)

/-- `Group.remove_child_prompt` (common.py lines 551-566): `list.remove`
the prompt from `_child_prompts`, then `child_prompt.remove_parent_group(self)`
— which dispatches to `Prompt.remove_parent_group`, the override that
operates on `_prompt_arguments` and is handed a `Group` argument here; its
returned flag is discarded. On `ValueError` of the outer remove, return
`False` with nothing changed. -/
def remove_child_prompt (h : Heap) (self child : Nat) : Heap × Bool :=
  match removeFirst
      (fun j => abstractBaseEq .prompt (h.prompts j).name .prompt (h.prompts child).name)
      (h.groups self).childPrompts with
  | some l =>
    let h1 := setGroup h self { h.groups self with childPrompts := l }
    let r := prompt_remove_parent_group h1.promptArgs (h1.prompts child)
      .group (h1.groups self).name
    (setPrompt h1 child r.1, true)
  | none => (h, false)

/-- Outcome of a fuel-indexed run of a Python procedure: a returned value,
a raised exception, or failure to return within the given call depth. -/
inductive PyRes (α : Type) where
  | ok (val : α)
  | err (msg : String)
  | diverge
deriving DecidableEq, Repr

/-- `Group._get_fully_qualified_name_recursive` (common.py lines 607-622),
fuel-indexed: follow `tg.get_parent()`; when present, recurse on the
parent and join with `self._name_separator`, else return `tg.get_name()`.
One fuel is spent per recursive call. -/
def getFQNRec (h : Heap) (selfSep : String) (fuel : Nat) (tg : Nat) : PyRes String :=
  match (h.groups tg).parent with
  | some parent =>
    match fuel with
    | 0 => .diverge
    | fuel' + 1 =>
      match getFQNRec h selfSep fuel' parent with
      | .ok parentName => .ok (parentName ++ selfSep ++ (h.groups tg).name)
      | .err e => .err e
      | .diverge => .diverge
  | none => .ok (h.groups tg).name

/-- `Group.get_fully_qualified_name` (common.py lines 624-631). -/
def get_fully_qualified_name (fuel : Nat) (h : Heap) (self : Nat) : PyRes String :=
  getFQNRec h (h.groups self).nameSeparator fuel self

/-- A `groupext.py` `Group`: a name and an optional parent chain (the only
attributes its fully-qualified-name methods read). -/
inductive GXGroup where
  | node (name : String) (parent : Option GXGroup)

/-- The `name` attribute of a groupext group. -/
def GXGroup.name : GXGroup → String
  | .node n _ => n

/-- The `parent` attribute of a groupext group. -/
def GXGroup.parent : GXGroup → Option GXGroup
  | .node _ p => p

/-- `Group._get_parent_name` (groupext.py lines 16-17), fuel-indexed.
Faithful to the source: when `tg.parent` is truthy the recursive call is
`self._get_parent_name(sb, self.parent, separator)` — on `self.parent`,
not `tg.parent`. A `none` argument models Python `None`, on which the
attribute access `tg.parent` raises. One fuel is spent per recursive
call. -/
def gxGetParentName (self : GXGroup) (separator : String) (fuel : Nat)
    (tgOpt : Option GXGroup) : PyRes String :=
  match tgOpt with
  | none => .err "AttributeError: NoneType object has no attribute parent"
  | some tg =>
    match tg.parent with
    | some _ =>
      match fuel with
      | 0 => .diverge
      | fuel' + 1 =>
        match gxGetParentName self separator fuel' self.parent with
        | .ok s => .ok (s ++ separator ++ tg.name)
        | .err e => .err e
        | .diverge => .diverge
    | none => .ok tg.name

/-- `Group.get_fully_qualified_name` (groupext.py lines 19-20):
`self._get_parent_name("", self, name_separator)`. -/
def gxGetFullyQualifiedName (fuel : Nat) (self : GXGroup)
    (nameSeparator : String) : PyRes String :=
  gxGetParentName self nameSeparator fuel (some self)

/-- `GroupConverter.convert_from_groups` loop body (common.py lines
1085-1090): walk the input, appending each non-`None` single conversion
to the accumulated result. -/
def convertFromGroupsLoop {β : Type} (convert_from_group : GroupObj → Option β) :
    List GroupObj → List β → List β
  | [], result => result
  | gn :: rest, result =>
    match convert_from_group gn with
    | some converted => convertFromGroupsLoop convert_from_group rest (result ++ [converted])
    | none => convertFromGroupsLoop convert_from_group rest result

/-- `GroupConverter.convert_from_groups` (common.py lines 1075-1090),
generic over the abstract single-element `convert_from_group`. -/
def convert_from_groups {β : Type} (convert_from_group : GroupObj → Option β)
    (groups : List GroupObj) : List β :=
  convertFromGroupsLoop convert_from_group groups []

/-- A group as `Group(n)` constructs it: fresh, parentless, childless,
default separator. -/
def mkGroup (n : String) : GroupObj :=
  { name := n, nameSeparator := DEFAULT_SEPARATOR, parent := none,
    childGroups := [], childTools := [], childPrompts := [], childResources := [] }

/-- A prompt as `Prompt(n)` constructs it. -/
def mkPrompt (n : String) : PromptObj :=
  { name := n, nameSeparator := DEFAULT_SEPARATOR, parentGroups := [],
    promptArguments := [] }

/-- `mkGroup` is exactly the object `Group.__init__` builds. -/
theorem group_init_eq_mkGroup (n : String) : group_init (some n) none = .ok (mkGroup n) :=
  rfl

/-- `mkPrompt` is exactly the object `Prompt.__init__` builds. -/
theorem prompt_init_eq_mkPrompt (n : String) : prompt_init (some n) = .ok (mkPrompt n) :=
  rfl

/-- A heap whose objects are all fresh constructor results. -/
def emptyHeap : Heap :=
  { groups := fun _ => mkGroup ""
    tools := fun _ => { name := "", nameSeparator := DEFAULT_SEPARATOR,
                        parentGroups := [], inputSchema := none, outputSchema := none }
    prompts := fun _ => mkPrompt ""
    promptArgs := fun _ => { name := "", nameSeparator := DEFAULT_SEPARATOR,
                             required := false }
    resources := fun _ => { name := "", nameSeparator := DEFAULT_SEPARATOR,
                            parentGroups := [], uri := none, size := none,
                            mimeType := none } }

/-- Helper: `list.remove` finds an element exactly when some element
satisfies the equality test. -/
theorem removeFirst_isSome {α : Type} (eqArg : α → Bool) (l : List α) :
    (removeFirst eqArg l).isSome = l.any eqArg := by
  induction l with
  | nil => rfl
  | cons x xs ih =>
    by_cases hx : eqArg x
    · simp [removeFirst, hx]
    · simp [removeFirst, hx, ih]

/-- Helper: the accumulator loop of `convert_from_groups` computes the
accumulator followed by the successful conversions of the remaining
input, in order. -/
theorem convertFromGroupsLoop_eq {β : Type} (cv : GroupObj → Option β)
    (l : List GroupObj) : ∀ acc : List β,
    convertFromGroupsLoop cv l acc = acc ++ l.filterMap cv := by
  induction l with
  | nil => intro acc; simp [convertFromGroupsLoop]
  | cons gn rest ih =>
    intro acc
    cases hc : cv gn with
    | some converted => simp [convertFromGroupsLoop, hc, ih]
    | none => simp [convertFromGroupsLoop, hc, ih]

/-- C6: equality of identity-base entities holds exactly when the two
objects are of the same concrete kind and have equal names — only kind
and name enter `AbstractBase.__eq__` — and in particular two `Tool`
objects named "x" are equal while a `Tool` named "x" and a `Resource`
named "x" are not. -/
theorem abstract_base_eq_kind_and_name :
    (∀ (k1 k2 : Kind) (n1 n2 : String),
        abstractBaseEq k1 n1 k2 n2 = true ↔ (k1 = k2 ∧ n1 = n2))
    ∧ abstractBaseEq .tool "x" .tool "x" = true
    ∧ abstractBaseEq .tool "x" .resource "x" = false := by
  refine ⟨fun k1 k2 n1 n2 => ?_, rfl, rfl⟩
  simp [abstractBaseEq, Bool.and_eq_true, beq_iff_eq]

/-- C7: every operation whose argument is a logically required reference
fails immediately with `ValueError` when that reference is missing:
constructing any identity-base entity (`Group`, `Tool`, `Prompt`,
`Resource`, `PromptArgument`) with name `None`, `add_parent_group(None)`
on a leaf, and `add_prompt_argument(None)` on a `Prompt`. Each failing
call returns only the error — it carries no updated object, so the state
the caller holds is untouched. -/
theorem missing_required_reference_errors :
    (∀ s : Option String, group_init none s = .error "name must not be null")
    ∧ tool_init none = .error "name must not be null"
    ∧ prompt_init none = .error "name must not be null"
    ∧ resource_init none = .error "name must not be null"
    ∧ prompt_argument_init none = .error "name must not be null"
    ∧ (∀ pr : PromptObj, pr.add_parent_group none = .error "parentGroup must not be null")
    ∧ (∀ t : ToolObj, t.add_parent_group none = .error "parentGroup must not be null")
    ∧ (∀ pr : PromptObj, pr.add_prompt_argument none = .error "promptArgument must not be null") := by
  refine ⟨fun s => ?_, rfl, rfl, rfl, rfl, fun pr => rfl, fun t => rfl, fun pr => rfl⟩
  cases s <;> rfl

/-- C8: immediately after `p.add_child_group(c)`, `c.parent is p` and `c`
is a member of the `childGroups` of `p` (the call also returns `True`). This
holds for every heap and every pair of ids, including `p = c`. -/
theorem add_child_group_wires_parent_and_membership (h : Heap) (p c : Nat) :
    (add_child_group h p c).2 = true
    ∧ ((add_child_group h p c).1.groups c).parent = some p
    ∧ c ∈ ((add_child_group h p c).1.groups p).childGroups := by
  refine ⟨rfl, by simp [add_child_group, setGroup], ?_⟩
  by_cases hpc : p = c
  · subst hpc
    simp [add_child_group, setGroup]
  · simp [add_child_group, setGroup, hpc, Ne.symm hpc]

/-- C9: for every converter and every input sequence, the batch
`convert_from_groups` returns exactly the successful single-element
conversions, in input order, dropping every element whose conversion is
absent; in particular on `[a, b, c]`, when converting `b` is absent, it
returns exactly `[convert a, convert c]`. -/
theorem convert_from_groups_filters_absent :
    (∀ (β : Type) (cv : GroupObj → Option β) (gs : List GroupObj),
        convert_from_groups cv gs = gs.filterMap cv)
    ∧ (∀ (β : Type) (cv : GroupObj → Option β) (a b c : GroupObj) (x z : β),
        cv a = some x → cv b = none → cv c = some z →
        convert_from_groups cv [a, b, c] = [x, z]) := by
  have base : ∀ (β : Type) (cv : GroupObj → Option β) (gs : List GroupObj),
      convert_from_groups cv gs = gs.filterMap cv := by
    intro β cv gs
    simpa using convertFromGroupsLoop_eq cv gs []
  refine ⟨base, fun β cv a b c x z ha hb hc => ?_⟩
  simp [base, List.filterMap, ha, hb, hc]

/-- The root "a" of the depth-3 groupext chain. -/
def gxA : GXGroup := .node "a" none

/-- The middle group "b" of the depth-3 groupext chain, child of "a". -/
def gxB : GXGroup := .node "b" (some gxA)

/-- The grandchild "c" of the depth-3 groupext chain, child of "b". -/
def gxC : GXGroup := .node "c" (some gxB)

/-- Helper: once `_get_parent_name` is processing `tg := self.parent` and
that group still has a parent of its own, every later recursive call is
again on `self.parent`: the walk never advances, so no amount of fuel
makes it return. -/
theorem gxGetParentName_stuck (selfG tgG : GXGroup) (sep : String)
    (hself : selfG.parent = some tgG) (htg : (GXGroup.parent tgG).isSome = true) :
    ∀ fuel : Nat, gxGetParentName selfG sep fuel (some tgG) = .diverge := by
  intro fuel
  induction fuel with
  | zero =>
    obtain ⟨p, hp⟩ := Option.isSome_iff_exists.mp htg
    simp [gxGetParentName, hp]
  | succ k ih =>
    obtain ⟨p, hp⟩ := Option.isSome_iff_exists.mp htg
    simp [gxGetParentName, hp, hself, ih]

/-- C2 (behaviour of the code at the failing input): on the depth-3 chain
root "a" ← "b" ← "c", the groupext `get_fully_qualified_name` of the
grandchild returns under NO call-depth bound: the recursion
`self._get_parent_name(sb, self.parent, separator)` passes `self.parent`
(never `tg.parent`), so from the second call on it re-examines "b"
forever. In Python this is an infinite recursion ending in
`RecursionError`, against the specified O(depth) termination. -/
theorem groupext_fqn_depth_three_diverges :
    ∀ fuel : Nat, gxGetFullyQualifiedName fuel gxC "." = .diverge := by
  intro fuel
  cases fuel with
  | zero =>
    simp [gxGetFullyQualifiedName, gxGetParentName, gxC, GXGroup.parent, gxB]
  | succ k =>
    have h1 : GXGroup.parent gxC = some gxB := rfl
    have h2 : (GXGroup.parent gxB).isSome = true := rfl
    have stuck := gxGetParentName_stuck gxC gxB "." h1 h2 k
    simp [gxGetFullyQualifiedName, gxGetParentName, h1, stuck]

/-- The heap carrying the three freshly constructed groups "a" (id 0),
"b" (id 1) and "c" (id 2), all with the default separator ".". -/
def fqnHeap : Heap :=
  { emptyHeap with
    groups := fun j => if j = 0 then mkGroup "a" else if j = 1 then mkGroup "b" else mkGroup "c" }

/-- The chain after `a.add_child_group(b)` and `b.add_child_group(c)`. -/
def fqnChain : Heap :=
  (add_child_group (add_child_group fqnHeap 0 1).1 1 2).1

/-- C3: on the three-group chain "a" → "b" → "c" built with the default
separator, `get_fully_qualified_name` of the grandchild returns exactly
"a.b.c" (ancestor-first, separator-joined). Fuel 2 covers the two
recursive calls the depth-3 chain needs, and a much larger budget
returns the same value. -/
theorem fqn_three_chain_eq_abc :
    get_fully_qualified_name 2 fqnChain 2 = .ok "a.b.c"
    ∧ get_fully_qualified_name 1000 fqnChain 2 = .ok "a.b.c" := by
  constructor <;> rfl

/-- A heap whose group 0 is the fresh `Group("g")` and whose prompt 0 is
the fresh `Prompt("q")`. -/
def c1Heap : Heap :=
  { emptyHeap with groups := fun _ => mkGroup "g", prompts := fun _ => mkPrompt "q" }

/-- The heap after `p.add_child_prompt(q)` for group p = group id 0 and
prompt q = prompt id 0 of `c1Heap`. -/
def c1AfterAdd : Heap := (add_child_prompt c1Heap 0 0).1

/-- C1 (behaviour of the code at the failing input): after
`p.add_child_prompt(q)` the wiring is bidirectional, and after the
following `p.remove_child_prompt(q)` the prompt is gone from
`p.childPrompts` — but `p` is STILL a member of `q.parent_groups`,
because `Prompt.remove_parent_group` is shadowed by a prompt-argument
remover that never touches `_parent_groups`. The claimed symmetry fails. -/
theorem prompt_remove_child_keeps_parent_group :
    (c1AfterAdd.groups 0).childPrompts = [0]
    ∧ (c1AfterAdd.prompts 0).parentGroups = [0]
    ∧ (remove_child_prompt c1AfterAdd 0 0).2 = true
    ∧ ((remove_child_prompt c1AfterAdd 0 0).1.groups 0).childPrompts = []
    ∧ ((remove_child_prompt c1AfterAdd 0 0).1.prompts 0).parentGroups = [0] := by
  refine ⟨rfl, rfl, rfl, rfl, rfl⟩

/-- A heap for C4: group 0 is "p" whose `childGroups` holds only group 2;
group 1 ("x", with a parent pointer to group 3) is the removal argument;
group 2 is a DISTINCT group also named "x"; group 3 is "e". -/
def c4Heap : Heap :=
  { emptyHeap with groups := fun j =>
      (if j = 0 then { mkGroup "p" with childGroups := [2] }
       else if j = 1 then { mkGroup "x" with parent := some 3 }
       else if j = 2 then mkGroup "x"
       else mkGroup "e") }

/-- C4 counterexample: group 1 is not a member (by identity) of the
`childGroups` of group 0, yet because the distinct member group 2 carries the same
name, `remove_child_group` compares by `__eq__` (class + name), removes
group 2, clears the parent pointer of group 1 and returns `True` — where the
claim demands `False` with both `childGroups` and `c.parent` unchanged. -/
theorem remove_child_group_identity_cex :
    1 ∉ (c4Heap.groups 0).childGroups
    ∧ 2 ∈ (c4Heap.groups 0).childGroups
    ∧ (c4Heap.groups 2).name = (c4Heap.groups 1).name
    ∧ (remove_child_group c4Heap 0 1).2 = true
    ∧ ¬((remove_child_group c4Heap 0 1).1.groups 0).childGroups = (c4Heap.groups 0).childGroups
    ∧ ¬((remove_child_group c4Heap 0 1).1.groups 1).parent = (c4Heap.groups 1).parent := by
  refine ⟨by decide, by decide, rfl, rfl, by decide, by decide⟩

/-- C4 as amended: `remove_child_group` removes the first member of
`childGroups` that is `__eq__`-equal to the argument (same class `Group`
and equal name), not the argument by identity; it returns `True` exactly
when such a member exists, it returns `False` with the whole heap
unchanged when none does, and whenever it returns `True` it clears the
parent pointer of the ARGUMENT. -/
theorem remove_child_group_by_name_spec (h : Heap) (p c : Nat) :
    ((remove_child_group h p c).2 = true ↔
      (h.groups p).childGroups.any
        (fun j => abstractBaseEq .group (h.groups j).name .group (h.groups c).name) = true)
    ∧ ((remove_child_group h p c).2 = false → remove_child_group h p c = (h, false))
    ∧ ((remove_child_group h p c).2 = true →
        ((remove_child_group h p c).1.groups c).parent = none) := by
  have hs := removeFirst_isSome
    (fun j => abstractBaseEq .group (h.groups j).name .group (h.groups c).name)
    (h.groups p).childGroups
  cases hr : removeFirst
      (fun j => abstractBaseEq .group (h.groups j).name .group (h.groups c).name)
      (h.groups p).childGroups with
  | none =>
    rw [hr] at hs
    simp only [Option.isSome_none] at hs
    refine ⟨?_, fun _ => ?_, fun htrue => ?_⟩
    · simp [remove_child_group, hr, ← hs]
    · simp [remove_child_group, hr]
    · exact absurd htrue (by simp [remove_child_group, hr])
  | some l =>
    rw [hr] at hs
    simp only [Option.isSome_some] at hs
    refine ⟨?_, fun hfalse => ?_, fun _ => ?_⟩
    · simp [remove_child_group, hr, ← hs]
    · exact absurd hfalse (by simp [remove_child_group, hr])
    · simp [remove_child_group, hr, setGroup]

/-- A heap for C5 and C10: group 0 is the fresh `Group("p")`, every other
id holds the fresh `Group("c")`. -/
def c5Heap : Heap :=
  { emptyHeap with groups := fun j => if j = 0 then mkGroup "p" else mkGroup "c" }

/-- C5 counterexample: calling `p.add_child_group(c)` twice with the same
object leaves the child occurring TWICE in `childGroups` — membership is
not unique-by-identity. -/
theorem add_child_group_duplicate_cex :
    ((add_child_group (add_child_group c5Heap 0 1).1 0 1).1.groups 0).childGroups = [1, 1]
    ∧ ¬(((add_child_group (add_child_group c5Heap 0 1).1 0 1).1.groups 0).childGroups.count 1 ≤ 1) := by
  refine ⟨rfl, by decide⟩

/-- C5 as amended: the child collections are plain append-on-add lists
with no uniqueness check — each add appends one occurrence of the child
to the matching collection, so adding the same object twice leaves it
occurring twice. -/
theorem child_collections_append_spec (h : Heap) (p c : Nat) :
    ((add_child_group h p c).1.groups p).childGroups = (h.groups p).childGroups ++ [c]
    ∧ ((add_child_tool h p c).1.groups p).childTools = (h.groups p).childTools ++ [c]
    ∧ ((add_child_prompt h p c).1.groups p).childPrompts = (h.groups p).childPrompts ++ [c] := by
  refine ⟨?_, ?_, ?_⟩
  · by_cases hpc : p = c
    · subst hpc; simp [add_child_group, setGroup]
    · simp [add_child_group, setGroup, hpc]
  · simp [add_child_tool, ToolObj.add_parent_group, setTool, setGroup]
  · simp [add_child_prompt, PromptObj.add_parent_group, setPrompt, setGroup]

/-- C10: `set_parent` writes only the `parent` field of the receiver — every
other field of the receiver, every other group, and all leaf objects
are untouched; in particular the receiver is NOT inserted into the new
parent collection `childGroups`, witnessed on `c5Heap` where after
`set_parent 1 (some 0)` the parent of group 1 is group 0 yet group 1 is not a
member of the `childGroups` of group 0. -/
theorem set_parent_frame (h : Heap) (g : Nat) (p : Option Nat) :
    ((set_parent h g p).groups g).parent = p
    ∧ ((set_parent h g p).groups g).name = (h.groups g).name
    ∧ ((set_parent h g p).groups g).nameSeparator = (h.groups g).nameSeparator
    ∧ ((set_parent h g p).groups g).childGroups = (h.groups g).childGroups
    ∧ ((set_parent h g p).groups g).childTools = (h.groups g).childTools
    ∧ ((set_parent h g p).groups g).childPrompts = (h.groups g).childPrompts
    ∧ ((set_parent h g p).groups g).childResources = (h.groups g).childResources
    ∧ (∀ j, j ≠ g → (set_parent h g p).groups j = h.groups j)
    ∧ (set_parent h g p).tools = h.tools
    ∧ (set_parent h g p).prompts = h.prompts
    ∧ (set_parent h g p).promptArgs = h.promptArgs
    ∧ (set_parent h g p).resources = h.resources
    ∧ ((set_parent c5Heap 1 (some 0)).groups 1).parent = some 0
    ∧ 1 ∉ ((set_parent c5Heap 1 (some 0)).groups 0).childGroups := by
  refine ⟨by simp [set_parent, setGroup], by simp [set_parent, setGroup],
    by simp [set_parent, setGroup], by simp [set_parent, setGroup],
    by simp [set_parent, setGroup], by simp [set_parent, setGroup],
    by simp [set_parent, setGroup], fun j hj => by simp [set_parent, setGroup, hj],
    rfl, rfl, rfl, rfl, rfl, by decide⟩
